import Mathlib

/-!
Shallow embedding of `packages/amplify-cli/src/init-steps/s0-analyzeProject.ts`.

The source resolves the initial configuration (project name, environment name,
editor) for an `amplify init` invocation.  Effects are made explicit:

* reads of persisted state (`fs.existsSync`, `stateManager.getProjectConfig`,
  `stateManager.getLocalEnvInfo`, `stateManager.getTeamProviderInfo`,
  `context.amplify.getAllEnvs`, `process.cwd`, `path.basename`) become fields
  of a `World` value;
* CLI inputs (`context.exeInfo.inputParams`, `context.parameters.options`)
  become the read-only structures `InputParams` and `Options`, with JavaScript
  truthiness of optional strings made explicit via `strTruthy`;
* interactive prompt answers come from a `Prompts` oracle;
* printed error messages, usage-telemetry events, interactive prompting and
  process termination are recorded in the result structures.
  `exitOnNextTick(1)` (amplify-cli-core, outside the excerpt) is modelled from
  the spec collaborator contract `terminateProcess(exitCode) -> never returns`:
  a resolver that calls it yields an `exited` outcome and nothing after it in
  the same resolution is observed.
-/

/-- JavaScript truthiness of an optional string field: the field is present and
not the empty string.  (`undefined` and `""` are both falsy in JavaScript.) -/
def strTruthy : Option String → Bool
  | none => false
  | some s => s != ""

/-- Persisted local environment info (`local-env-info.json`): the fields of it
this source reads. -/
structure LocalEnvInfo where
  envName : Option String
  defaultEditor : Option String
deriving Repr, DecidableEq

/-- Everything the source observes about the outside world: working directory,
its base folder name, and the persisted state read through `fs` /
`stateManager` / `context.amplify`.  `teamProviderInfo` is the list of
environment-name keys of `team-provider-info.json` (`none` when the file is
absent); `allEnvs` is `context.amplify.getAllEnvs()`. -/
structure World where
  cwd : String
  cwdBasename : String
  projectConfigExists : Bool
  projectConfigName : String
  localEnvInfo : Option LocalEnvInfo
  teamProviderInfo : Option (List String)
  allEnvs : List String
deriving Repr, DecidableEq

/-- `context.exeInfo.inputParams.amplify`: the explicit headless parameters. -/
structure AmplifyParams where
  projectName : Option String
  envName : Option String
  defaultEditor : Option String
deriving Repr, DecidableEq

/-- `context.exeInfo.inputParams`: `amplify` sub-object and the
accept-all-defaults flag `yes` (truthiness already applied). -/
structure InputParams where
  amplify : Option AmplifyParams
  yes : Bool
deriving Repr, DecidableEq

/-- `context.parameters.options`: `app` and `quickstart` as their truthiness,
`forcePush` as its truthiness, `frontend` as the raw optional string. -/
structure Options where
  app : Bool
  quickstart : Bool
  forcePush : Bool
  frontend : Option String
deriving Repr, DecidableEq

/-- Oracle for the interactive prompt renderer: the answer each prompt of this
source would receive if shown.  The renderer re-asks until an answer passes the
validator attached to the prompt, so answers are raw strings here and validity
is a hypothesis where a claim needs it. -/
structure Prompts where
  projectNameAnswer : String
  envNameAnswer : String
  useExisting : Bool
  envChoice : String
  editorAnswer : Option String
deriving Repr, DecidableEq

/-- `isNewProject` (source lines 217-225): true iff no project config file
exists at the working directory's expected path. -/
def isNewProject (w : World) : Bool :=
  !w.projectConfigExists

/-- `isEnvNameValid` (source lines 143-145): the test
`/^[a-z]{2,10}$/.test(inputEnvName)` — between 2 and 10 characters, every one a
lowercase ASCII letter. -/
def isEnvNameValid (s : String) : Bool :=
  decide (2 ≤ s.length) && decide (s.length ≤ 10) &&
    s.data.all (fun c => decide ('a' ≤ c) && decide (c ≤ 'z'))

/-- The invalid-environment-name message (source line 147). -/
def INVALID_ENV_NAME_MSG : String :=
  "Environment name must be between 2 and 10 characters, and lowercase only."

/-- The missing-environment-name message (source line 158). -/
def ENV_NAME_MISSING_MSG : String :=
  "Environment name missing"

/-- The guard of source line 149,
`context.exeInfo.inputParams.amplify && context.exeInfo.inputParams.amplify.envName`:
the explicit environment-name parameter when it is supplied and truthy. -/
def explicitEnvParam (p : InputParams) : Option String :=
  match p.amplify with
  | some a => if strTruthy a.envName then a.envName else none
  | none => none

/-- The guard of source line 95,
`context.exeInfo.inputParams.amplify && context.exeInfo.inputParams.amplify.projectName`. -/
def explicitProjectParam (p : InputParams) : Option String :=
  match p.amplify with
  | some a => if strTruthy a.projectName then a.projectName else none
  | none => none

/-- `getDefaultEnv` (source lines 132-138): offer `"dev"` when the project is
new or `"dev"` is not among the known environments, otherwise no default. -/
def getDefaultEnv (w : World) : Option String :=
  if isNewProject w || !(w.allEnvs.contains "dev") then some "dev" else none

/-- Outcome of environment-name resolution: a resolved name, or process
termination with an exit code. -/
inductive EnvOutcome where
  | name (envName : String)
  | exited (code : Nat)
deriving Repr, DecidableEq

/-- Result of `getEnvName`, with the observable effects: error messages
printed, usage-telemetry events emitted (by the message of the
`InvalidEnvironmentNameError` constructed), whether any interactive prompt was
reached, and — when the new-environment-name prompt was shown — the default it
offered. -/
structure EnvResolution where
  outcome : EnvOutcome
  printed : List String
  telemetry : List String
  prompted : Bool
  newEnvDefault : Option (Option String)
deriving Repr, DecidableEq

/-- `getEnvName` (source lines 140-200).  Explicit parameter first: valid means
return it verbatim, invalid means print, emit telemetry and terminate.  Then
the accept-all-defaults check: `yes` with no explicit parameter prints the
distinct missing message, emits telemetry and terminates.  Otherwise the
interactive flow: new projects go straight to the new-environment-name prompt;
existing projects with known environments first ask whether to reuse one. -/
def getEnvName (w : World) (p : InputParams) (pr : Prompts) : EnvResolution :=
  match explicitEnvParam p with
  | some e =>
    if isEnvNameValid e then
      { outcome := EnvOutcome.name e, printed := [], telemetry := [],
        prompted := false, newEnvDefault := none }
    else
      { outcome := EnvOutcome.exited 1, printed := [INVALID_ENV_NAME_MSG],
        telemetry := [INVALID_ENV_NAME_MSG], prompted := false, newEnvDefault := none }
  | none =>
    if p.yes then
      { outcome := EnvOutcome.exited 1, printed := [ENV_NAME_MISSING_MSG],
        telemetry := [INVALID_ENV_NAME_MSG], prompted := false, newEnvDefault := none }
    else
      let newEnvQuestion : EnvResolution :=
        { outcome := EnvOutcome.name pr.envNameAnswer, printed := [], telemetry := [],
          prompted := true, newEnvDefault := some (getDefaultEnv w) }
      if isNewProject w then
        newEnvQuestion
      else if w.allEnvs.length > 0 then
        if pr.useExisting then
          { outcome := EnvOutcome.name pr.envChoice, printed := [], telemetry := [],
            prompted := true, newEnvDefault := none }
        else
          newEnvQuestion
      else
        newEnvQuestion

/-- `isNewEnv` (source lines 202-215): the resolved name is new unless it is a
key of the persisted team-provider mapping, which is read tolerating absence
with an empty default. -/
def isNewEnv (w : World) (envName : String) : Bool :=
  !((w.teamProviderInfo.getD []).contains envName)

/-- `getDefaultEditor` (source lines 227-235): the `defaultEditor` field of the
persisted local environment info, read tolerating absence with an empty-object
default (so `none` when the file is absent or the field missing). -/
def getDefaultEditor (w : World) : Option String :=
  match w.localEnvInfo with
  | some info => info.defaultEditor
  | none => none

/-- Result of editor resolution: the editor (possibly unset), whether the
explicit parameter was consumed (through `normalizeEditor`), and whether the
editor-selection prompt ran. -/
structure EditorResolution where
  editor : Option String
  usedParam : Bool
  prompted : Bool
deriving Repr, DecidableEq

/-- `getEditor` (source lines 120-129).  `normalizeEditor` lives in the
editor-selection helper outside the excerpt, so it is passed in as the function
`ne`; `editorSelection` is the external prompt, answered by the oracle. -/
def getEditor (ne : String → Option String) (p : InputParams) (pr : Prompts) :
    EditorResolution :=
  match p.amplify with
  | some a =>
    if strTruthy a.defaultEditor then
      { editor := ne (a.defaultEditor.getD ""), usedParam := true, prompted := false }
    else if !p.yes then
      { editor := pr.editorAnswer, usedParam := false, prompted := true }
    else
      { editor := none, usedParam := false, prompted := false }
  | none =>
    if !p.yes then
      { editor := pr.editorAnswer, usedParam := false, prompted := true }
    else
      { editor := none, usedParam := false, prompted := false }

/-- The editor resolution of `analyzeProject` (source lines 35-39):
`getDefaultEditor()` first, and only when that is falsy fall back to
`getEditor`. -/
def resolveEditor (ne : String → Option String) (w : World) (p : InputParams)
    (pr : Prompts) : EditorResolution :=
  let d := getDefaultEditor w
  if strTruthy d then
    { editor := d, usedParam := false, prompted := false }
  else
    getEditor ne p pr

/-- Modelled from the spec: `isProjectNameValid` lives in the
project-name-validation helper outside the excerpt; per the spec, a project
name is valid when it is alphanumeric (letters and digits only) and its length
is between 3 and 20 inclusive. -/
def isProjectNameValid (s : String) : Bool :=
  decide (3 ≤ s.length) && decide (s.length ≤ 20) &&
    s.data.all (fun c =>
      (decide ('a' ≤ c) && decide (c ≤ 'z')) ||
      (decide ('A' ≤ c) && decide (c ≤ 'Z')) ||
      (decide ('0' ≤ c) && decide (c ≤ '9')))

/-- Modelled from the spec: `normalizeProjectName` lives in the
project-name-validation helper outside the excerpt; per the spec, normalization
strips disallowed (non-alphanumeric) characters. -/
def normalizeProjectName (s : String) : String :=
  String.mk (s.data.filter (fun c =>
    (decide ('a' ≤ c) && decide (c ≤ 'z')) ||
    (decide ('A' ≤ c) && decide (c ≤ 'Z')) ||
    (decide ('0' ≤ c) && decide (c ≤ '9'))))

/-- Result of `getProjectName`: the resolved name and whether the interactive
project-name prompt ran. -/
structure ProjectNameResult where
  projectName : String
  prompted : Bool
deriving Repr, DecidableEq

/-- `getProjectName` (source lines 83-116).  Existing project: the persisted
name, untouched.  New project: an explicit truthy parameter is normalized and
returned; otherwise the base folder name is normalized and, unless `yes`,
offered as the default of an interactive prompt whose answer wins. -/
def getProjectName (w : World) (p : InputParams) (pr : Prompts) : ProjectNameResult :=
  if !(isNewProject w) then
    { projectName := w.projectConfigName, prompted := false }
  else
    match explicitProjectParam p with
    | some n => { projectName := normalizeProjectName n, prompted := false }
    | none =>
      if !p.yes then
        { projectName := pr.projectNameAnswer, prompted := true }
      else
        { projectName := normalizeProjectName w.cwdBasename, prompted := false }

/-- Modelled from the spec: `amplifyCLIConstants.CURRENT_PROJECT_CONFIG_VERSION`
lives in the constants helper outside the excerpt; the spec calls it only "a
fixed current version constant", so it is an opaque token here. -/
def CURRENT_PROJECT_CONFIG_VERSION : String := "current"

/-- `context.exeInfo.projectConfig` as set by `setProjectConfig`
(source lines 62-68). -/
structure ProjectConfig where
  projectName : String
  version : String
deriving Repr, DecidableEq

/-- `context.exeInfo.localEnvInfo` as set by `setExeInfo`
(source lines 70-80). -/
structure ExeLocalEnvInfo where
  projectPath : String
  defaultEditor : Option String
  envName : Option String
deriving Repr, DecidableEq

/-- The fully assembled `context.exeInfo` fields produced by `analyzeProject`.
`teamProviderInfo` and `metaData` are set to empty mappings by `setExeInfo` and
carry no information, so they are omitted. -/
structure ResolvedContext where
  isNewProject : Bool
  isNewEnv : Bool
  forcePush : Bool
  sourceEnvName : Option String
  projectConfig : ProjectConfig
  localEnvInfo : ExeLocalEnvInfo
deriving Repr, DecidableEq

/-- The steps of the main resolution, labelled by the resolution procedure the
spec assigns them to: project identity (source lines 31-32), environment name
(line 33), editor (lines 35-39), environment classification and carry-over
(lines 41-54), context assembly (lines 56-57). -/
inductive Step where
  | projectIdentity
  | envName
  | editor
  | envClassify
  | assembler
deriving Repr, DecidableEq, BEq

/-- A step of the Environment Resolver. -/
def isEnvStep : Step → Bool
  | Step.envName => true
  | Step.envClassify => true
  | _ => false

/-- Outcome of `analyzeProject`: the assembled context, or process
termination. -/
inductive AnalyzeOutcome where
  | ok (ctx : ResolvedContext)
  | exited (code : Nat)
deriving Repr, DecidableEq

/-- Result of `analyzeProject` with its observable effects and the trace of
resolution steps in execution order. -/
structure AnalyzeResult where
  outcome : AnalyzeOutcome
  steps : List Step
  printed : List String
  telemetry : List String
  warnings : List String
deriving Repr, DecidableEq

/-- The recommendation note of source lines 27-29. -/
def RUN_FROM_ROOT_WARNING : String :=
  "Note: It is recommended to run this command from the root of your app directory"

/-- `analyzeProject` (source lines 26-60), with `exitOnNextTick` modelled as
termination (spec collaborator `terminateProcess`): when `getEnvName`
terminates, the steps after it are not observed.  Otherwise the editor is
resolved, the environment classified, the carry-over source environment read
(tolerating absent local env info), and the context assembled by
`setProjectConfig` / `setExeInfo`. -/
def analyzeProject (ne : String → Option String) (w : World) (o : Options)
    (p : InputParams) (pr : Prompts) : AnalyzeResult :=
  let warnings := if !o.app || !o.quickstart then [RUN_FROM_ROOT_WARNING] else []
  let newProj := isNewProject w
  let pres := getProjectName w p pr
  let env := getEnvName w p pr
  match env.outcome with
  | EnvOutcome.exited c =>
    { outcome := AnalyzeOutcome.exited c,
      steps := [Step.projectIdentity, Step.envName],
      printed := env.printed, telemetry := env.telemetry, warnings := warnings }
  | EnvOutcome.name envName =>
    let ed := resolveEditor ne w p pr
    let newEnv := isNewEnv w envName
    let sourceEnvName :=
      if newEnv && !newProj then
        match w.localEnvInfo with
        | some info => info.envName
        | none => none
      else none
    { outcome := AnalyzeOutcome.ok
        { isNewProject := newProj,
          isNewEnv := newEnv,
          forcePush := o.forcePush,
          sourceEnvName := sourceEnvName,
          projectConfig := { projectName := pres.projectName,
                             version := CURRENT_PROJECT_CONFIG_VERSION },
          localEnvInfo := { projectPath := w.cwd, defaultEditor := ed.editor,
                            envName := some envName } },
      steps := [Step.projectIdentity, Step.envName, Step.editor,
                Step.envClassify, Step.assembler],
      printed := env.printed, telemetry := env.telemetry, warnings := warnings }

/-- The no-frontend warning of source line 19. -/
def NO_FRONTEND_WARNING : String :=
  "No frontend specified. Defaulting to android."

/-- Result of `analyzeProjectHeadless`, with the same effect fields so that the
absence of errors, telemetry, termination and prompting on this path is part of
the statement. -/
structure HeadlessResult where
  isNewProject : Bool
  projectConfig : ProjectConfig
  frontend : String
  localEnvInfo : ExeLocalEnvInfo
  warnings : List String
  printed : List String
  telemetry : List String
  exit : Option Nat
  prompted : Bool
deriving Repr, DecidableEq

/-- `analyzeProjectHeadless` (source lines 9-24): project name is the raw base
folder name, the environment is `getDefaultEnv`, the frontend defaults to
`android` with a warning when the option is falsy. -/
def analyzeProjectHeadless (w : World) (o : Options) : HeadlessResult :=
  let env := getDefaultEnv w
  { isNewProject := isNewProject w,
    projectConfig := { projectName := w.cwdBasename,
                       version := CURRENT_PROJECT_CONFIG_VERSION },
    frontend := if strTruthy o.frontend then o.frontend.getD "" else "android",
    localEnvInfo := { projectPath := w.cwd, defaultEditor := none, envName := env },
    warnings := if strTruthy o.frontend then [] else [NO_FRONTEND_WARNING],
    printed := [], telemetry := [], exit := none, prompted := false }

/-! ### Concrete fixtures used by witnesses and counterexamples -/

/-- An existing project: config file present, one known environment `dev`,
persisted editor `vscode`. -/
def W_existing : World :=
  { cwd := "/home/user/myapp", cwdBasename := "myapp", projectConfigExists := true,
    projectConfigName := "myapp",
    localEnvInfo := some { envName := some "dev", defaultEditor := some "vscode" },
    teamProviderInfo := some ["dev"], allEnvs := ["dev"] }

/-- A fresh directory: no config file, no persisted state, no environments. -/
def W_new : World :=
  { cwd := "/home/user/shopone", cwdBasename := "shopone", projectConfigExists := false,
    projectConfigName := "", localEnvInfo := none, teamProviderInfo := none,
    allEnvs := [] }

/-- Plain options: no app/quickstart, no force-push, no frontend. -/
def O0 : Options :=
  { app := false, quickstart := false, forcePush := false, frontend := none }

/-- Interactive prompt answers used by the witnesses. -/
def PR0 : Prompts :=
  { projectNameAnswer := "myapp", envNameAnswer := "stage", useExisting := false,
    envChoice := "dev", editorAnswer := some "vim" }

/-- Prompt answers choosing to reuse the existing environment `dev`. -/
def PR_use : Prompts :=
  { projectNameAnswer := "myapp", envNameAnswer := "stage", useExisting := true,
    envChoice := "dev", editorAnswer := none }

/-- A concrete `normalizeEditor` collaborator for the witnesses. -/
def NE0 : String → Option String := fun s => some s

/-- Interactive invocation: no explicit parameters, `yes` unset. -/
def P_interactive : InputParams := { amplify := none, yes := false }

/-- Accept-all-defaults invocation with no explicit parameters. -/
def P_yes : InputParams := { amplify := none, yes := true }

/-- Explicit valid environment-name parameter `dev`. -/
def P_envdev : InputParams :=
  { amplify := some { projectName := none, envName := some "dev", defaultEditor := none },
    yes := false }

/-- Explicit invalid environment-name parameter `DEV` (uppercase). -/
def P_envDEV : InputParams :=
  { amplify := some { projectName := none, envName := some "DEV", defaultEditor := none },
    yes := false }

/-- Headless invocation whose explicit project name normalizes to the
too-short name `a`. -/
def P_shortname : InputParams :=
  { amplify := some { projectName := some "a!", envName := some "dev",
                      defaultEditor := none },
    yes := true }

/-! ### Claims -/

/-- C1: when an explicit environment-name parameter is supplied, a value
matching `^[a-z]{2,10}$` is returned verbatim with nothing printed, no
telemetry and no prompting; a non-matching value prints the invalid-name error,
emits a usage-error telemetry event, terminates the process with exit status 1
and never yields a name. -/
theorem claim_C1_explicit_env_param (w : World) (p : InputParams) (pr : Prompts)
    (e : String) (h : explicitEnvParam p = some e) :
    (isEnvNameValid e = true →
      getEnvName w p pr =
        { outcome := EnvOutcome.name e, printed := [], telemetry := [],
          prompted := false, newEnvDefault := none })
    ∧ (isEnvNameValid e = false →
      getEnvName w p pr =
        { outcome := EnvOutcome.exited 1, printed := [INVALID_ENV_NAME_MSG],
          telemetry := [INVALID_ENV_NAME_MSG], prompted := false,
          newEnvDefault := none }) := by
  unfold getEnvName
  rw [h]
  constructor
  · intro hv; simp [hv]
  · intro hv; simp [hv]

/-- Witness for C1 at the explicit parameter `dev`. -/
theorem claim_C1_witness :
    getEnvName W_existing P_envdev PR0 =
      { outcome := EnvOutcome.name "dev", printed := [], telemetry := [],
        prompted := false, newEnvDefault := none } :=
  (claim_C1_explicit_env_param W_existing P_envdev PR0 "dev" (by decide)).1 (by decide)

/-- C2: accept-all-defaults mode with no explicit environment-name parameter
prints the distinct missing-environment-name message, emits a usage-error
telemetry event, terminates with exit status 1 and reaches no interactive
prompt. -/
theorem claim_C2_yes_missing_env (w : World) (p : InputParams) (pr : Prompts)
    (h1 : explicitEnvParam p = none) (h2 : p.yes = true) :
    getEnvName w p pr =
      { outcome := EnvOutcome.exited 1, printed := [ENV_NAME_MISSING_MSG],
        telemetry := [INVALID_ENV_NAME_MSG], prompted := false,
        newEnvDefault := none } := by
  unfold getEnvName
  rw [h1]
  simp [h2]

/-- Witness for C2 at an accept-all-defaults invocation with no parameters. -/
theorem claim_C2_witness :
    getEnvName W_existing P_yes PR0 =
      { outcome := EnvOutcome.exited 1, printed := [ENV_NAME_MISSING_MSG],
        telemetry := [INVALID_ENV_NAME_MSG], prompted := false,
        newEnvDefault := none } :=
  claim_C2_yes_missing_env W_existing P_yes PR0 (by decide) (by decide)

/-- C3: `isNewProject` is true exactly when no project config file exists, and
for an existing project the resolved project name is the persisted one, with no
prompting (and, the persisted name being arbitrary here, no validation). -/
theorem claim_C3_project_identity (w : World) (p : InputParams) (pr : Prompts) :
    (isNewProject w = true ↔ w.projectConfigExists = false)
    ∧ (isNewProject w = false →
        getProjectName w p pr =
          { projectName := w.projectConfigName, prompted := false }) := by
  constructor
  · unfold isNewProject; cases w.projectConfigExists <;> simp
  · intro h
    unfold getProjectName
    rw [h]
    simp

/-- Witness for C3 at the existing-project world. -/
theorem claim_C3_witness :
    getProjectName W_existing P_interactive PR0 =
      { projectName := "myapp", prompted := false } :=
  (claim_C3_project_identity W_existing P_interactive PR0).2 (by decide)

/-- C4: `isNewEnv` is false exactly when the resolved name is a key of the
persisted team-provider mapping, the mapping read defaulting to empty when the
file is absent. -/
theorem claim_C4_is_new_env (w : World) (n : String) :
    isNewEnv w n = false ↔ (w.teamProviderInfo.getD []).contains n = true := by
  unfold isNewEnv
  cases (w.teamProviderInfo.getD []).contains n <;> simp

/-- Witness for C4: `dev` is a key of the existing world's mapping. -/
theorem claim_C4_witness : isNewEnv W_existing "dev" = false :=
  (claim_C4_is_new_env W_existing "dev").mpr (by decide)

/-- C5: when the persisted local environment info holds a non-empty
`defaultEditor`, editor resolution returns it unchanged — for every mode, every
explicit parameter and every `normalizeEditor` collaborator — consuming no
parameter and showing no editor-selection prompt. -/
theorem claim_C5_persisted_editor_wins (ne : String → Option String) (w : World)
    (p : InputParams) (pr : Prompts) (h : strTruthy (getDefaultEditor w) = true) :
    resolveEditor ne w p pr =
      { editor := getDefaultEditor w, usedParam := false, prompted := false } := by
  unfold resolveEditor
  simp [h]

/-- Witness for C5: the stored editor `vscode` wins over an interactive
invocation. -/
theorem claim_C5_witness :
    resolveEditor NE0 W_existing P_interactive PR0 =
      { editor := some "vscode", usedParam := false, prompted := false } :=
  claim_C5_persisted_editor_wins NE0 W_existing P_interactive PR0 (by decide)

/-- C6: for a completed main resolution, when the environment is new and the
project is not, `sourceEnvName` is the environment name read from persisted
local environment info (absence tolerated as `none`); in every other case it is
unset. -/
theorem claim_C6_source_env_carry_over (ne : String → Option String) (w : World)
    (o : Options) (p : InputParams) (pr : Prompts) (ctx : ResolvedContext)
    (h : (analyzeProject ne w o p pr).outcome = AnalyzeOutcome.ok ctx) :
    (ctx.isNewEnv = true → ctx.isNewProject = false →
        ctx.sourceEnvName = w.localEnvInfo.bind LocalEnvInfo.envName)
    ∧ (ctx.isNewEnv = false ∨ ctx.isNewProject = true →
        ctx.sourceEnvName = none) := by
  simp only [analyzeProject] at h
  cases henv : (getEnvName w p pr).outcome with
  | exited c =>
    rw [henv] at h
    simp at h
  | name en =>
    rw [henv] at h
    simp only [AnalyzeOutcome.ok.injEq] at h
    subst h
    constructor
    · intro h1 h2
      simp only at h1 h2 ⊢
      simp [h1, h2]
      cases w.localEnvInfo <;> simp
    · intro h1
      simp only at h1 ⊢
      rcases h1 with h1 | h1 <;> simp [h1]

/-- The context assembled by the run of the C6 witness: interactive creation
of the new environment `stage` on the existing project. -/
def CTX6 : ResolvedContext :=
  { isNewProject := false, isNewEnv := true, forcePush := false,
    sourceEnvName := some "dev",
    projectConfig := { projectName := "myapp",
                       version := CURRENT_PROJECT_CONFIG_VERSION },
    localEnvInfo := { projectPath := "/home/user/myapp",
                      defaultEditor := some "vscode",
                      envName := some "stage" } }

/-- Witness for C6: a new environment (`stage`) on the existing project carries
over the prior environment name `dev`. -/
theorem claim_C6_witness :
    CTX6.sourceEnvName = W_existing.localEnvInfo.bind LocalEnvInfo.envName
    ∧ W_existing.localEnvInfo.bind LocalEnvInfo.envName = some "dev" :=
  ⟨(claim_C6_source_env_carry_over NE0 W_existing O0 P_interactive PR0 CTX6
      (by decide)).1 (by decide) (by decide),
   by decide⟩

/-- C7: whenever the interactive new-environment-name prompt is shown, the
default it offers is `dev` exactly when the project is new or `dev` is not
already a known environment, and absent otherwise. -/
theorem claim_C7_new_env_prompt_default (w : World) (p : InputParams)
    (pr : Prompts) (d : Option String)
    (h : (getEnvName w p pr).newEnvDefault = some d) :
    d = if isNewProject w = true ∨ w.allEnvs.contains "dev" = false
        then some "dev" else none := by
  have hd : d = getDefaultEnv w := by
    unfold getEnvName at h
    cases hp : explicitEnvParam p with
    | some e =>
      rw [hp] at h
      by_cases hv : isEnvNameValid e <;> simp [hv] at h
    | none =>
      rw [hp] at h
      by_cases hy : p.yes
      · simp [hy] at h
      · simp only [hy, if_false, Bool.false_eq_true] at h
        by_cases hnp : isNewProject w
        · simp [hnp] at h
          exact h.symm
        · by_cases hl : w.allEnvs.length > 0
          · by_cases hu : pr.useExisting
            · simp [hnp, hl, hu] at h
            · simp [hnp, hl, hu] at h
              exact h.symm
          · simp [hnp, hl] at h
            exact h.symm
  subst hd
  unfold getDefaultEnv
  cases hnp : isNewProject w <;> cases hc : w.allEnvs.contains "dev" <;>
    simp [hnp, hc]

/-- Witness for C7: the prompt shown for the fresh directory offers `dev`. -/
theorem claim_C7_witness :
    (some "dev" : Option String) =
      if isNewProject W_new = true ∨ W_new.allEnvs.contains "dev" = false
      then some "dev" else none :=
  claim_C7_new_env_prompt_default W_new P_interactive PR0 (some "dev") (by decide)

/-- C8 counterexample: in a full interactive run on the existing project, the
step trace is project identity, environment name, editor, environment
classification, assembly — an Environment Resolver step strictly precedes the
Editor Resolver step, so the claimed order Project-Identity, then Editor, then
Environment, then Assembler does not hold. -/
theorem claim_C8_counterexample :
    (analyzeProject NE0 W_existing O0 P_interactive PR_use).steps =
      [Step.projectIdentity, Step.envName, Step.editor, Step.envClassify,
       Step.assembler]
    ∧ List.indexOf Step.envName
        (analyzeProject NE0 W_existing O0 P_interactive PR_use).steps <
      List.indexOf Step.editor
        (analyzeProject NE0 W_existing O0 P_interactive PR_use).steps
    ∧ (analyzeProject NE0 W_existing O0 P_interactive PR_use).steps.contains
        Step.editor = true
    ∧ isEnvStep Step.envName = true := by decide

/-- C8 (amended): the main resolution runs project identity, then environment
name resolution, then (unless the name resolution terminated the process) the
editor, the environment classification with carry-over, and the assembler, in
that fixed order; and the environment resolution consumes the new-project flag:
on a new project the interactive flow goes straight to the new-environment
prompt, whose default also consumes the flag. -/
theorem claim_C8_amended_order (ne : String → Option String) (w : World)
    (o : Options) (p : InputParams) (pr : Prompts) :
    ((analyzeProject ne w o p pr).steps =
      match (analyzeProject ne w o p pr).outcome with
      | AnalyzeOutcome.ok _ =>
          [Step.projectIdentity, Step.envName, Step.editor, Step.envClassify,
           Step.assembler]
      | AnalyzeOutcome.exited _ => [Step.projectIdentity, Step.envName])
    ∧ (explicitEnvParam p = none → p.yes = false → isNewProject w = true →
        (getEnvName w p pr).outcome = EnvOutcome.name pr.envNameAnswer
        ∧ (getEnvName w p pr).newEnvDefault = some (getDefaultEnv w)) := by
  constructor
  · simp only [analyzeProject]
    cases henv : (getEnvName w p pr).outcome <;> simp [henv]
  · intro h1 h2 h3
    unfold getEnvName
    rw [h1]
    simp [h2, h3]

/-- Witness for the amended C8 at the fresh directory in interactive mode. -/
theorem claim_C8_amended_witness :
    (getEnvName W_new P_interactive PR0).outcome = EnvOutcome.name "stage"
    ∧ (getEnvName W_new P_interactive PR0).newEnvDefault =
        some (getDefaultEnv W_new) :=
  (claim_C8_amended_order NE0 W_new O0 P_interactive PR0).2
    (by decide) (by decide) (by decide)

/-- The resolved project name of a completed main resolution (`none` when the
resolution terminated the process instead). -/
def okProjectName (r : AnalyzeResult) : Option String :=
  match r.outcome with
  | AnalyzeOutcome.ok ctx => some ctx.projectConfig.projectName
  | AnalyzeOutcome.exited _ => none

/-- C9 counterexample: a headless run on a fresh directory with explicit
project name `a!` (normalizing to the one-character name `a`, which fails the
3-to-20 alphanumeric validation) completes without any fatal error and accepts
`a` as the resolved project name — no validation is applied on this path. -/
theorem claim_C9_counterexample :
    okProjectName (analyzeProject NE0 W_new O0 P_shortname PR0) = some "a"
    ∧ isProjectNameValid "a" = false := by decide

/-- C9 (amended): for a new project with an explicit project-name parameter,
the name is normalized and accepted directly as the resolved project name, with
no prompting and no validation applied (the format validator is attached only
to the interactive prompt). -/
theorem claim_C9_amended_no_validation (w : World) (p : InputParams)
    (pr : Prompts) (n : String) (h1 : isNewProject w = true)
    (h2 : explicitProjectParam p = some n) :
    getProjectName w p pr =
      { projectName := normalizeProjectName n, prompted := false } := by
  unfold getProjectName
  rw [h1, h2]
  simp

/-- Witness for the amended C9: the explicit name `a!` resolves to `a`. -/
theorem claim_C9_amended_witness :
    getProjectName W_new P_shortname PR0 =
      { projectName := "a", prompted := false } :=
  claim_C9_amended_no_validation W_new P_shortname PR0 "a!" (by decide) (by decide)

/-- C10: the headless fast path on a directory with a project config file and
`dev` among the known environments leaves the environment name unset, prints no
error, emits no telemetry, neither terminates nor prompts, and takes the raw
base folder name as the project name. -/
theorem claim_C10_headless_fast_path (w : World) (o : Options)
    (h1 : w.projectConfigExists = true) (h2 : w.allEnvs.contains "dev" = true) :
    (analyzeProjectHeadless w o).localEnvInfo.envName = none
    ∧ (analyzeProjectHeadless w o).printed = []
    ∧ (analyzeProjectHeadless w o).telemetry = []
    ∧ (analyzeProjectHeadless w o).exit = none
    ∧ (analyzeProjectHeadless w o).prompted = false
    ∧ (analyzeProjectHeadless w o).projectConfig.projectName = w.cwdBasename := by
  have h2m : "dev" ∈ w.allEnvs := by simpa using h2
  unfold analyzeProjectHeadless getDefaultEnv isNewProject
  simp [h1, h2m]

/-- Witness for C10 at the existing-project world. -/
theorem claim_C10_witness :
    (analyzeProjectHeadless W_existing O0).localEnvInfo.envName = none
    ∧ (analyzeProjectHeadless W_existing O0).printed = []
    ∧ (analyzeProjectHeadless W_existing O0).telemetry = []
    ∧ (analyzeProjectHeadless W_existing O0).exit = none
    ∧ (analyzeProjectHeadless W_existing O0).prompted = false
    ∧ (analyzeProjectHeadless W_existing O0).projectConfig.projectName = "myapp" :=
  claim_C10_headless_fast_path W_existing O0 (by decide) (by decide)
